import Mathlib

/-!
Formal model of the core logic of `unit_model_browser_r04.py` (Supreme Ruler
Unit Model Browser): the unit-record parser `parse_units_robust`, the region
filter test embedded in `filter_list`, the reverse picnum lookup
`search_by_picnum`, and the mesh-resolution probe in `on_selection_changed`.

Modelling conventions:
- the input file is modelled after CSV splitting, as a list of rows, each row
  a list of field strings (what Python's `csv.reader` hands to the loop body);
- Python string operations (`strip`, `isdigit`, `in`, `int(...)`) are modelled
  on ASCII text: `int` accepts an optional sign followed by decimal digits
  after stripping surrounding whitespace, `isdigit` accepts decimal digits;
- a nonexistent input file is modelled as `none` (the code returns `[]`);
- filesystem existence is modelled as a boolean predicate on file names
  relative to the mesh directory.
-/

/-- Whitespace test used by the model of Python `str.strip`. -/
def isPySpace (c : Char) : Bool := c.isWhitespace

/-- Drop leading whitespace characters. -/
def trimLeftChars (l : List Char) : List Char := l.dropWhile isPySpace

/-- Drop trailing whitespace characters. -/
def trimRightChars (l : List Char) : List Char := (l.reverse.dropWhile isPySpace).reverse

/-- Model of Python `str.strip()`: remove whitespace from both ends. -/
def pyStrip (s : String) : String := String.mk (trimRightChars (trimLeftChars s.data))

/-- Model of Python `str.isdigit()`: nonempty and all decimal digits. -/
def pyIsDigit (s : String) : Bool := !s.data.isEmpty && s.data.all Char.isDigit

/-- Containment of one character list inside another as a contiguous run. -/
def charsContain (needle hay : List Char) : Bool :=
  match hay with
  | [] => needle.isEmpty
  | c :: t => needle.isPrefixOf (c :: t) || charsContain needle t

/-- Model of Python's `needle in hay` substring containment test. -/
def strIn (needle hay : String) : Bool := charsContain needle.data hay.data

/-- Model of Python `s.startswith(pre)`. -/
def pyStartsWith (s pre : String) : Bool := pre.data.isPrefixOf s.data

/-- Interpret a list of characters as a decimal number, or `none` if the list
is empty or holds a non-digit. -/
def digitsToNat (l : List Char) : Option Nat :=
  if l.isEmpty then none
  else if l.all Char.isDigit then some (l.foldl (fun a c => a * 10 + (c.toNat - 48)) 0)
  else none

/-- Model of Python `int(s)`: strip whitespace, allow one optional sign, then
decimal digits; any other shape raises `ValueError`, modelled as `none`. -/
def pyInt (s : String) : Option Int :=
  if (pyStrip s).data.head? = some '-' then
    (digitsToNat (pyStrip s).data.tail).map (fun n => -(Int.ofNat n))
  else if (pyStrip s).data.head? = some '+' then
    (digitsToNat (pyStrip s).data.tail).map (fun n => Int.ofNat n)
  else (digitsToNat (pyStrip s).data).map (fun n => Int.ofNat n)

/-- Embeds the `SimpleUnit` dataclass of the source (same field order). -/
structure SimpleUnit where
  id : Int
  name : String
  picnum : Int
  unit_class : Int
  category : String
  regions : String
deriving DecidableEq

/-- Category computation from `parse_units_robust`:
`u_class <= 6` gives land, `u_class <= 12` gives air, else naval. -/
def categoryOf (u_class : Int) : String :=
  if u_class ≤ 6 then "land" else if u_class ≤ 12 then "air" else "naval"

/-- Body of the `try` block of `parse_units_robust` for one candidate row:
field 0 is the id, field 1 (trimmed) the name, field 2 the class (0 when blank
after trim), field 3 the picnum (0 when blank), field 12 (when present) the
region codes. A failing integer conversion (`ValueError`) yields `none`. -/
def rowToUnit (row : List String) : Option SimpleUnit :=
  match pyInt (row.getD 0 "") with
  | none => none
  | some unit_id =>
    match (if (pyStrip (row.getD 2 "")).data.isEmpty then some 0
           else pyInt (pyStrip (row.getD 2 ""))) with
    | none => none
    | some u_class =>
      match (if (pyStrip (row.getD 3 "")).data.isEmpty then some 0
             else pyInt (pyStrip (row.getD 3 ""))) with
      | none => none
      | some pic =>
        some ⟨unit_id, pyStrip (row.getD 1 ""), pic, u_class, categoryOf u_class,
              if row.length > 12 then pyStrip (row.getD 12 "") else ""⟩

/-- The sentinel marker token `&&UNITS` of the unit file format. -/
def unitsMarker : String := "&&UNITS"

/-- A row whose first field contains the sentinel marker (`"&&UNITS" in row[0]`);
an empty row has no first field and is never a marker row. -/
def isMarkerRow (row : List String) : Bool := strIn unitsMarker (row.headD "")

/-- The loop of `parse_units_robust`, with the `start_parsing` flag explicit:
skip empty rows; a marker row sets the flag; before the flag nothing is data;
rows with fewer than 4 fields, comment rows and rows whose first field is not
all digits are skipped; otherwise the row is converted, a conversion failure
being skipped silently. -/
def parse_units_from (rows : List (List String)) (start_parsing : Bool) : List SimpleUnit :=
  match rows with
  | [] => []
  | row :: rest =>
    if row.isEmpty then parse_units_from rest start_parsing
    else if isMarkerRow row then parse_units_from rest true
    else if !start_parsing then parse_units_from rest start_parsing
    else if row.length < 4 then parse_units_from rest start_parsing
    else if pyStartsWith (pyStrip (row.headD "")) "//"
            || !pyIsDigit (pyStrip (row.headD "")) then parse_units_from rest start_parsing
    else
      match rowToUnit row with
      | some u => u :: parse_units_from rest start_parsing
      | none => parse_units_from rest start_parsing

/-- Embeds `parse_units_robust` applied to the rows of an existing file
(`start_parsing` begins `False`). -/
def parse_units_robust (rows : List (List String)) : List SimpleUnit :=
  parse_units_from rows false

/-- Embeds `parse_units_robust` including the file-existence check:
`none` models a nonexistent path, for which the code returns `[]`. -/
def parse_units_robust_file (file : Option (List (List String))) : List SimpleUnit :=
  match file with
  | none => []
  | some rows => parse_units_robust rows

/-- Effect of one row on the output once its handling is fixed, used to state
row-local facts about the loop (not itself a source function). -/
def row_step (row : List String) (started : Bool) : List SimpleUnit :=
  if row.isEmpty then []
  else if !started then []
  else if row.length < 4 then []
  else if pyStartsWith (pyStrip (row.headD "")) "//"
          || !pyIsDigit (pyStrip (row.headD "")) then []
  else
    match rowToUnit row with
    | some u => [u]
    | none => []

/-- Region-filter acceptance test embedded from `filter_list`: a unit is kept
for a selected (truthy) region code when the code is the wildcard and the
unit's region string contains a global marker, or otherwise when the code is a
substring of the region string or the unit is global. -/
def region_matches (region_code : String) (regions : String) : Bool :=
  if region_code = "*" then strIn "*" regions || strIn "@" regions
  else strIn region_code regions || strIn "*" regions || strIn "@" regions

/-- Widget state read by `filter_list` (search text, category choice, sort
mode, resolved region filter code; `none` models "All Regions"). -/
structure FilterSettings where
  search_text : String
  category_choice : String
  sort_mode : String
  region_code : Option String
deriving DecidableEq

/-- Outcome of `search_by_picnum`: empty input returns silently; a failing
integer conversion shows a warning and leaves the displayed list unchanged;
otherwise the matching units are displayed. -/
inductive PicnumSearchOutcome where
  | noSearch
  | invalidWarning
  | results (items : List SimpleUnit)
deriving DecidableEq

/-- Embeds `search_by_picnum`: strip the entered text, bail out on empty text,
warn on a failing `int` conversion, else display every unit of the full loaded
list whose picnum equals the target, in list order. The method never reads the
category, search, region or sort widgets, so the settings argument is unused. -/
def search_by_picnum (units : List SimpleUnit) (_settings : FilterSettings)
    (picnum_text : String) : PicnumSearchOutcome :=
  if (pyStrip picnum_text).data.isEmpty then PicnumSearchOutcome.noSearch
  else
    match pyInt (pyStrip picnum_text) with
    | none => PicnumSearchOutcome.invalidWarning
    | some target => PicnumSearchOutcome.results (units.filter (fun u => u.picnum == target))

/-- Model of Python's `f"{i:03d}"`: sign, then the digits zero-padded so the
whole rendering is at least 3 characters wide. -/
def zfill3 (i : Int) : String :=
  let sign := if i < 0 then "-" else ""
  let body := toString i.natAbs
  if 3 ≤ sign.length + body.length then sign ++ body
  else sign ++ String.mk (List.replicate (3 - (sign.length + body.length)) '0') ++ body

/-- Filename stem `UNIT{picnum:03d}` used by `on_selection_changed` and
`check_textures`. -/
def mesh_stem (picnum : Int) : String := "UNIT" ++ zfill3 picnum

/-- Primary mesh extension of the active profile: `.x` for SRU, `.cmo` for
SR2030. -/
def primary_ext (is_sru : Bool) : String := if is_sru then ".x" else ".cmo"

/-- Secondary mesh extension of the active profile: the other profile's
primary. -/
def secondary_ext (is_sru : Bool) : String := if is_sru then ".cmo" else ".x"

/-- Result reported by the mesh probe of `on_selection_changed`: exact match
on the primary path, alternate format on the secondary path, or missing (the
primary file name is what gets displayed then). -/
inductive MeshStatus where
  | meshFound (path : String)
  | altFormatFound (path : String)
  | meshMissing (displayName : String)
deriving DecidableEq

/-- Embeds the mesh probe of `on_selection_changed` (existence checks relative
to the mesh directory): probe the primary-extension path, then the secondary,
and report which matched or that both are missing. -/
def resolve_mesh (fileExists : String → Bool) (is_sru : Bool) (picnum : Int) : MeshStatus :=
  if fileExists (mesh_stem picnum ++ primary_ext is_sru) then
    MeshStatus.meshFound (mesh_stem picnum ++ primary_ext is_sru)
  else if fileExists (mesh_stem picnum ++ secondary_ext is_sru) then
    MeshStatus.altFormatFound (mesh_stem picnum ++ secondary_ext is_sru)
  else MeshStatus.meshMissing (mesh_stem picnum ++ primary_ext is_sru)

/-- A fixed non-marker, non-data row used when restating "the later marker row
behaves like an ordinary non-data row". -/
def ordinaryRow : List String := ["//replaced"]

/-- Modelled from the spec: the transformation the multiple-marker claim
compares against, replacing every marker row after the first by an ordinary
non-data row (`seen` records whether a marker has occurred already). -/
def replace_later_markers (rows : List (List String)) (seen : Bool) : List (List String) :=
  match rows with
  | [] => []
  | row :: rest =>
    if isMarkerRow row then
      if seen then ordinaryRow :: replace_later_markers rest true
      else row :: replace_later_markers rest true
    else row :: replace_later_markers rest seen

/-- Concrete unit list used by witnesses. -/
def sampleUnits : List SimpleUnit :=
  [⟨1, "Alpha", 5, 2, "land", "G"⟩, ⟨2, "Bravo", 7, 3, "land", "*"⟩, ⟨3, "Delta", 5, 14, "naval", "U"⟩]

/-- Concrete widget state used by witnesses. -/
def sampleSettings : FilterSettings := ⟨"", "All", "ID", none⟩

/-! Helper lemmas about the string model. -/

theorem dropWhile_self_idem (p : Char → Bool) (l : List Char) :
    (l.dropWhile p).dropWhile p = l.dropWhile p := by
  induction l with
  | nil => rfl
  | cons a t ih =>
    by_cases h : p a
    · simp [List.dropWhile_cons, h, ih]
    · simp [List.dropWhile_cons, h]

theorem length_dropWhile_le' (p : Char → Bool) (l : List Char) :
    (l.dropWhile p).length ≤ l.length := by
  induction l with
  | nil => simp
  | cons b t ih =>
    by_cases hb : p b
    · rw [List.dropWhile_cons_of_pos hb]
      exact Nat.le_trans ih (Nat.le_succ _)
    · rw [List.dropWhile_cons_of_neg hb]

theorem dropWhile_cons_self (p : Char → Bool) (a : Char) (l : List Char)
    (h : (a :: l).dropWhile p = a :: l) : p a = false := by
  by_cases hp : p a
  · exfalso
    rw [List.dropWhile_cons_of_pos hp] at h
    have hle := length_dropWhile_le' p l
    rw [h] at hle
    simp at hle
  · exact Bool.of_not_eq_true hp

theorem trimRight_decomp (l : List Char) :
    trimRightChars l ++ (l.reverse.takeWhile isPySpace).reverse = l := by
  unfold trimRightChars
  conv_rhs => rw [← l.reverse_reverse,
    ← List.takeWhile_append_dropWhile (p := isPySpace) (l := l.reverse)]
  rw [List.reverse_append]

theorem trimLeft_trimRight (l : List Char) (h : trimLeftChars l = l) :
    trimLeftChars (trimRightChars l) = trimRightChars l := by
  rcases e : trimRightChars l with _ | ⟨a, as⟩
  · rfl
  · obtain ⟨t, ht⟩ : ∃ t, l = (a :: as) ++ t := by
      refine ⟨(l.reverse.takeWhile isPySpace).reverse, ?_⟩
      have hd := trimRight_decomp l
      rw [e] at hd
      exact hd.symm
    have hfa : isPySpace a = false := by
      apply dropWhile_cons_self isPySpace a (as ++ t)
      have h' := h
      unfold trimLeftChars at h'
      rw [ht] at h'
      simpa using h'
    unfold trimLeftChars
    rw [List.dropWhile_cons_of_neg (by simp [hfa])]

theorem pyStrip_idem (s : String) : pyStrip (pyStrip s) = pyStrip s := by
  show String.mk (trimRightChars (trimLeftChars (trimRightChars (trimLeftChars s.data))))
      = String.mk (trimRightChars (trimLeftChars s.data))
  have h1 : trimLeftChars (trimLeftChars s.data) = trimLeftChars s.data :=
    dropWhile_self_idem isPySpace s.data
  rw [trimLeft_trimRight _ h1]
  unfold trimRightChars
  rw [List.reverse_reverse, dropWhile_self_idem]

theorem pyInt_nonneg (s : String) (n : Int) (h : pyInt s = some n)
    (hh : (pyStrip s).data.head? ≠ some '-') : 0 ≤ n := by
  unfold pyInt at h
  rw [if_neg hh] at h
  by_cases hp : (pyStrip s).data.head? = some '+'
  · rw [if_pos hp] at h
    rcases Option.map_eq_some'.mp h with ⟨m, _, hm⟩
    have hm' : Int.ofNat m = n := hm
    subst hm'
    exact Int.ofNat_nonneg m
  · rw [if_neg hp] at h
    rcases Option.map_eq_some'.mp h with ⟨m, _, hm⟩
    have hm' : Int.ofNat m = n := hm
    subst hm'
    exact Int.ofNat_nonneg m

/-! Structural lemmas about the parser loop. -/

theorem isMarkerRow_of_isEmpty (row : List String) (h : row.isEmpty = true) :
    isMarkerRow row = false := by
  rcases row with _ | ⟨f, t⟩
  · decide
  · simp at h

theorem parse_from_cons (row : List String) (rest : List (List String)) (b : Bool) :
    parse_units_from (row :: rest) b =
      if isMarkerRow row then parse_units_from rest true
      else row_step row b ++ parse_units_from rest b := by
  rw [parse_units_from]
  by_cases he : row.isEmpty = true
  · have hm : ¬ isMarkerRow row = true := by
      rw [isMarkerRow_of_isEmpty row he]
      exact Bool.false_ne_true
    rw [if_pos he, if_neg hm, row_step, if_pos he, List.nil_append]
  · rw [if_neg he]
    by_cases hm : isMarkerRow row = true
    · rw [if_pos hm, if_pos hm]
    · rw [if_neg hm, if_neg hm, row_step, if_neg he]
      rcases b with _ | _
      · rw [if_pos (by decide : (!false) = true), if_pos (by decide : (!false) = true),
          List.nil_append]
      · rw [if_neg (by decide : ¬ (!true) = true), if_neg (by decide : ¬ (!true) = true)]
        by_cases hl : row.length < 4
        · rw [if_pos hl, if_pos hl, List.nil_append]
        · rw [if_neg hl, if_neg hl]
          by_cases hc : (pyStartsWith (pyStrip (row.headD "")) "//"
              || !pyIsDigit (pyStrip (row.headD ""))) = true
          · rw [if_pos hc, if_pos hc, List.nil_append]
          · rw [if_neg hc, if_neg hc]
            rcases hr : rowToUnit row with _ | u
            · rfl
            · rfl

theorem row_step_false (row : List String) : row_step row false = [] := by
  unfold row_step
  by_cases he : row.isEmpty
  · simp [he]
  · simp [he]

theorem row_step_mem (row : List String) (b : Bool) (u : SimpleUnit)
    (h : u ∈ row_step row b) : rowToUnit row = some u := by
  unfold row_step at h
  split at h
  · simp at h
  · split at h
    · simp at h
    · split at h
      · simp at h
      · split at h
        · simp at h
        · split at h
          · rename_i u' heq
            rw [heq]
            simp at h
            rw [h]
          · simp at h

theorem mem_parse_from (rows : List (List String)) (b : Bool) (u : SimpleUnit)
    (h : u ∈ parse_units_from rows b) : ∃ row ∈ rows, rowToUnit row = some u := by
  induction rows generalizing b with
  | nil => simp [parse_units_from] at h
  | cons row rest ih =>
    rw [parse_from_cons] at h
    split at h
    · obtain ⟨r, hr, hru⟩ := ih true h
      exact ⟨r, List.mem_cons_of_mem _ hr, hru⟩
    · rcases List.mem_append.mp h with h1 | h2
      · exact ⟨row, List.mem_cons_self _ _, row_step_mem row b u h1⟩
      · obtain ⟨r, hr, hru⟩ := ih b h2
        exact ⟨r, List.mem_cons_of_mem _ hr, hru⟩

/-! Lemmas about one converted row and the category computation. -/

theorem rowToUnit_spec (row : List String) (u : SimpleUnit) (h : rowToUnit row = some u) :
    u.category = categoryOf u.unit_class ∧
    u.name = pyStrip (row.getD 1 "") ∧
    ((pyStrip (row.getD 3 "")).data.head? ≠ some '-' → 0 ≤ u.picnum) := by
  unfold rowToUnit at h
  split at h
  · exact absurd h (by simp)
  · split at h
    · exact absurd h (by simp)
    · split at h
      · exact absurd h (by simp)
      · rename_i unit_id h0 u_class h2 pic h3
        rw [Option.some_inj] at h
        subst h
        refine ⟨rfl, rfl, ?_⟩
        intro hneg
        show 0 ≤ pic
        split at h3
        · rw [Option.some_inj] at h3
          omega
        · apply pyInt_nonneg _ _ h3
          rw [pyStrip_idem]
          exact hneg

theorem categoryOf_land_iff (c : Int) : categoryOf c = "land" ↔ c ≤ 6 := by
  unfold categoryOf
  split_ifs with h1 h2
  · exact iff_of_true rfl h1
  · exact iff_of_false (by decide) h1
  · exact iff_of_false (by decide) h1

theorem categoryOf_air_iff (c : Int) : categoryOf c = "air" ↔ (6 < c ∧ c ≤ 12) := by
  unfold categoryOf
  split_ifs with h1 h2
  · exact iff_of_false (by decide) (by omega)
  · exact iff_of_true rfl (by omega)
  · exact iff_of_false (by decide) (by omega)

theorem categoryOf_naval_iff (c : Int) : categoryOf c = "naval" ↔ 12 < c := by
  unfold categoryOf
  split_ifs with h1 h2
  · exact iff_of_false (by decide) (by omega)
  · exact iff_of_false (by decide) (by omega)
  · exact iff_of_true rfl (by omega)

theorem row_step_nil_of_bad (row : List String) (b : Bool)
    (hbad : row.length < 4 ∨ pyIsDigit (pyStrip (row.headD "")) = false
            ∨ rowToUnit row = none) :
    row_step row b = [] := by
  unfold row_step
  by_cases he : row.isEmpty = true
  · rw [if_pos he]
  · rw [if_neg he]
    rcases b with _ | _
    · rw [if_pos (by decide : (!false) = true)]
    · rw [if_neg (by decide : ¬ (!true) = true)]
      by_cases hl : row.length < 4
      · rw [if_pos hl]
      · rw [if_neg hl]
        by_cases hc : (pyStartsWith (pyStrip (row.headD "")) "//"
            || !pyIsDigit (pyStrip (row.headD ""))) = true
        · rw [if_pos hc]
        · rw [if_neg hc]
          have hdig : pyIsDigit (pyStrip (row.headD "")) = true := by
            have hcf : (pyStartsWith (pyStrip (row.headD "")) "//"
                || !pyIsDigit (pyStrip (row.headD ""))) = false := Bool.eq_false_iff.mpr hc
            have hd := (Bool.or_eq_false_iff.mp hcf).2
            rcases hval : pyIsDigit (pyStrip (row.headD "")) with _ | _
            · rw [hval] at hd
              exact absurd hd (by decide)
            · rfl
          rcases hbad with hb1 | hb2 | hb3
          · exact absurd hb1 hl
          · rw [hdig] at hb2
            exact absurd hb2 (by decide)
          · rw [hb3]

theorem parse_from_false_of_no_marker (rows : List (List String))
    (h : ∀ r ∈ rows, isMarkerRow r = false) : parse_units_from rows false = [] := by
  induction rows with
  | nil => rfl
  | cons row rest ih =>
    rw [parse_from_cons]
    have hm : ¬ isMarkerRow row = true := by
      rw [h row (List.mem_cons_self _ _)]
      exact Bool.false_ne_true
    rw [if_neg hm, row_step_false, List.nil_append]
    exact ih (fun r hr => h r (List.mem_cons_of_mem _ hr))

theorem ordinaryRow_not_marker : isMarkerRow ordinaryRow = false := by decide

theorem ordinaryRow_step (b : Bool) : row_step ordinaryRow b = [] := by
  apply row_step_nil_of_bad
  left
  decide

theorem marker_row_not_empty (row : List String) (h : isMarkerRow row = true) :
    ¬ row.isEmpty = true := by
  intro he
  rw [isMarkerRow_of_isEmpty row he] at h
  exact absurd h (by decide)

theorem replace_later_markers_eq (rows : List (List String)) :
    ∀ b, parse_units_from (replace_later_markers rows b) b = parse_units_from rows b := by
  induction rows with
  | nil => intro b; rfl
  | cons row rest ih =>
    intro b
    rw [replace_later_markers]
    by_cases hm : isMarkerRow row = true
    · rw [if_pos hm]
      rcases b with _ | _
      · rw [if_neg (by decide : ¬ (false = true)), parse_from_cons, if_pos hm,
          parse_from_cons, if_pos hm]
        exact ih true
      · rw [if_pos rfl, parse_from_cons, if_neg (by rw [ordinaryRow_not_marker]; decide),
          ordinaryRow_step, List.nil_append, parse_from_cons, if_pos hm]
        exact ih true
    · rw [if_neg hm, parse_from_cons, if_neg hm, parse_from_cons, if_neg hm, ih b]

/-! Claim theorems. -/

/-- Claim C1: for every input line sequence in which no row's first field
contains the sentinel marker token, parse returns the empty sequence of
records, regardless of the content of the rows. -/
theorem claim_C1_no_marker_empty (rows : List (List String))
    (h : ∀ r ∈ rows, isMarkerRow r = false) : parse_units_robust rows = [] :=
  parse_from_false_of_no_marker rows h

/-- Witness for C1 at an input whose rows would qualify as data rows. -/
theorem claim_C1_witness :
    (∀ r ∈ [["12", "Tank", "3", "450"], ["//c", "x", "y", "z"]], isMarkerRow r = false) ∧
    parse_units_robust [["12", "Tank", "3", "450"], ["//c", "x", "y", "z"]] = [] :=
  ⟨by decide, claim_C1_no_marker_empty _ (by decide)⟩

/-- Claim C2: for every record produced by the parser, category equals land
iff the class code is at most 6, air iff it is more than 6 and at most 12,
naval otherwise, and category is a pure function of the class code. -/
theorem claim_C2_category_pure (rows : List (List String)) (b : Bool) (u : SimpleUnit)
    (h : u ∈ parse_units_from rows b) :
    u.category = categoryOf u.unit_class ∧
    (u.category = "land" ↔ u.unit_class ≤ 6) ∧
    (u.category = "air" ↔ (6 < u.unit_class ∧ u.unit_class ≤ 12)) ∧
    (u.category = "naval" ↔ 12 < u.unit_class) := by
  obtain ⟨row, _, hru⟩ := mem_parse_from rows b u h
  have hcat := (rowToUnit_spec row u hru).1
  refine ⟨hcat, ?_, ?_, ?_⟩
  · rw [hcat]
    exact categoryOf_land_iff u.unit_class
  · rw [hcat]
    exact categoryOf_air_iff u.unit_class
  · rw [hcat]
    exact categoryOf_naval_iff u.unit_class

/-- Witness for C2 at a concrete parsed record. -/
theorem claim_C2_witness :
    ((⟨1, "A", 4, 3, "land", ""⟩ : SimpleUnit) ∈
        parse_units_from [["&&UNITS"], ["1", "A", "3", "4"]] false) ∧
    ((⟨1, "A", 4, 3, "land", ""⟩ : SimpleUnit).category
        = categoryOf (⟨1, "A", 4, 3, "land", ""⟩ : SimpleUnit).unit_class ∧
    ((⟨1, "A", 4, 3, "land", ""⟩ : SimpleUnit).category = "land"
        ↔ (⟨1, "A", 4, 3, "land", ""⟩ : SimpleUnit).unit_class ≤ 6) ∧
    ((⟨1, "A", 4, 3, "land", ""⟩ : SimpleUnit).category = "air"
        ↔ (6 < (⟨1, "A", 4, 3, "land", ""⟩ : SimpleUnit).unit_class
            ∧ (⟨1, "A", 4, 3, "land", ""⟩ : SimpleUnit).unit_class ≤ 12)) ∧
    ((⟨1, "A", 4, 3, "land", ""⟩ : SimpleUnit).category = "naval"
        ↔ 12 < (⟨1, "A", 4, 3, "land", ""⟩ : SimpleUnit).unit_class)) :=
  ⟨by decide, claim_C2_category_pure [["&&UNITS"], ["1", "A", "3", "4"]] false
    ⟨1, "A", 4, 3, "land", ""⟩ (by decide)⟩

/-- Claim C3: with the marker already seen, the single row
`42,TestUnit,3,450,,,,,,,,,G` yields exactly one record with id 42, name
TestUnit, class code 3, picnum 450, category land and region codes G. -/
theorem claim_C3_roundtrip :
    parse_units_from [["42", "TestUnit", "3", "450", "", "", "", "", "", "", "", "", "G"]] true
      = [⟨42, "TestUnit", 450, 3, "land", "G"⟩] := by decide

/-- Claim C4: the wildcard filter matches a record iff its region string
contains a global marker; a non-wildcard code matches iff the code is a
substring of the region string or it contains a global marker; the stated
concrete region-match examples hold. -/
theorem claim_C4_region_matching :
    (∀ regions : String,
      region_matches "*" regions = (strIn "*" regions || strIn "@" regions)) ∧
    (∀ code regions : String, code ≠ "*" →
      region_matches code regions
        = (strIn code regions || strIn "*" regions || strIn "@" regions)) ∧
    region_matches "U" "*" = true ∧ region_matches "*" "*" = true ∧
    region_matches "G" "G" = true ∧ region_matches "U" "G" = false := by
  refine ⟨?_, ?_, by decide, by decide, by decide, by decide⟩
  · intro regions
    unfold region_matches
    rw [if_pos rfl]
  · intro code regions hc
    unfold region_matches
    rw [if_neg hc]

/-- Witness for C4 at a concrete custom code. -/
theorem claim_C4_witness :
    ("Q" : String) ≠ "*" ∧
    region_matches "Q" "*ab" = (strIn "Q" "*ab" || strIn "*" "*ab" || strIn "@" "*ab") :=
  ⟨by decide, claim_C4_region_matching.2.1 "Q" "*ab" (by decide)⟩

/-- Claim C5: mesh resolution probes the primary-extension path first, the
secondary only when the primary is absent, and reports exactly one of found,
alternate format, or missing; with a root holding only UNIT007.cmo the
SRU profile (primary .x) reports alternate format and the SR2030 profile
(primary .cmo) reports an exact match. -/
theorem claim_C5_mesh_resolution :
    (∀ (fileExists : String → Bool) (is_sru : Bool) (picnum : Int),
      (fileExists (mesh_stem picnum ++ primary_ext is_sru) = true →
        resolve_mesh fileExists is_sru picnum
          = MeshStatus.meshFound (mesh_stem picnum ++ primary_ext is_sru)) ∧
      (fileExists (mesh_stem picnum ++ primary_ext is_sru) = false →
        fileExists (mesh_stem picnum ++ secondary_ext is_sru) = true →
        resolve_mesh fileExists is_sru picnum
          = MeshStatus.altFormatFound (mesh_stem picnum ++ secondary_ext is_sru)) ∧
      (fileExists (mesh_stem picnum ++ primary_ext is_sru) = false →
        fileExists (mesh_stem picnum ++ secondary_ext is_sru) = false →
        resolve_mesh fileExists is_sru picnum
          = MeshStatus.meshMissing (mesh_stem picnum ++ primary_ext is_sru))) ∧
    resolve_mesh (fun q => q == "UNIT007.cmo") true 7
      = MeshStatus.altFormatFound "UNIT007.cmo" ∧
    resolve_mesh (fun q => q == "UNIT007.cmo") false 7
      = MeshStatus.meshFound "UNIT007.cmo" := by
  refine ⟨?_, by decide, by decide⟩
  intro fileExists is_sru picnum
  unfold resolve_mesh
  refine ⟨fun h1 => ?_, fun h1 h2 => ?_, fun h1 h2 => ?_⟩
  · rw [if_pos h1]
  · rw [if_neg (by rw [h1]; exact Bool.false_ne_true), if_pos h2]
  · rw [if_neg (by rw [h1]; exact Bool.false_ne_true),
      if_neg (by rw [h2]; exact Bool.false_ne_true)]

/-- Witness for C5 at a concrete root where the primary file exists. -/
theorem claim_C5_witness :
    (fun q => q == "UNIT001.x") (mesh_stem 1 ++ primary_ext true) = true ∧
    resolve_mesh (fun q => q == "UNIT001.x") true 1
      = MeshStatus.meshFound (mesh_stem 1 ++ primary_ext true) :=
  ⟨by decide, ((claim_C5_mesh_resolution.1 (fun q => q == "UNIT001.x") true 1).1 (by decide))⟩

/-- Claim C6: the parser is total (never raises): a nonexistent file yields
the empty sequence, and a post-marker row that is short, has a non-digit
first field, or fails integer conversion is dropped while parsing of the
remaining rows continues unchanged. -/
theorem claim_C6_no_raise_skips :
    parse_units_robust_file none = [] ∧
    ∀ (row : List String) (rest : List (List String)) (b : Bool),
      isMarkerRow row = false →
      (row.length < 4 ∨ pyIsDigit (pyStrip (row.headD "")) = false
        ∨ rowToUnit row = none) →
      parse_units_from (row :: rest) b = parse_units_from rest b := by
  refine ⟨rfl, ?_⟩
  intro row rest b hm hbad
  rw [parse_from_cons, if_neg (by rw [hm]; exact Bool.false_ne_true),
    row_step_nil_of_bad row b hbad, List.nil_append]

/-- Witness for C6 at a row whose class field fails integer conversion. -/
theorem claim_C6_witness :
    isMarkerRow ["1", "B", "xx", "4"] = false ∧
    rowToUnit ["1", "B", "xx", "4"] = none ∧
    parse_units_from [["1", "B", "xx", "4"], ["2", "C", "3", "4"]] true
      = parse_units_from [["2", "C", "3", "4"]] true :=
  ⟨by decide, by decide,
    claim_C6_no_raise_skips.2 ["1", "B", "xx", "4"] [["2", "C", "3", "4"]] true
      (by decide) (Or.inr (Or.inr (by decide)))⟩

/-- Counterexample to claim C7 as stated: the code enforces no non-emptiness
of the trimmed name; a data row with a blank name field yields a record whose
name is empty (also after trimming). -/
theorem claim_C7_counterexample :
    ∃ u ∈ parse_units_robust [["&&UNITS"], ["7", "  ", "2", "3"]],
      u.name = "" ∧ pyStrip u.name = "" := by decide

/-- Claim C7 as amended: every record's name is the trimmed field-1 string of
its source row (and hence may be empty when that field is blank). -/
theorem claim_C7_amended_name (rows : List (List String)) (b : Bool) (u : SimpleUnit)
    (h : u ∈ parse_units_from rows b) :
    ∃ row ∈ rows, rowToUnit row = some u ∧ u.name = pyStrip (row.getD 1 "") := by
  obtain ⟨row, hr, hru⟩ := mem_parse_from rows b u h
  exact ⟨row, hr, hru, (rowToUnit_spec row u hru).2.1⟩

/-- Witness for the amended C7 at a concrete parsed record. -/
theorem claim_C7_witness :
    ((⟨7, "Jeep", 3, 2, "land", ""⟩ : SimpleUnit) ∈
        parse_units_from [["&&UNITS"], ["7", "Jeep", "2", "3"]] false) ∧
    ∃ row ∈ [["&&UNITS"], ["7", "Jeep", "2", "3"]],
      rowToUnit row = some ⟨7, "Jeep", 3, 2, "land", ""⟩ ∧
      (⟨7, "Jeep", 3, 2, "land", ""⟩ : SimpleUnit).name = pyStrip (row.getD 1 "") :=
  ⟨by decide, claim_C7_amended_name [["&&UNITS"], ["7", "Jeep", "2", "3"]] false
    ⟨7, "Jeep", 3, 2, "land", ""⟩ (by decide)⟩

/-- Counterexample to claim C8 as stated: field 3 may hold a negative number,
so a parsed record can carry a negative picnum. -/
theorem claim_C8_counterexample :
    ∃ u ∈ parse_units_robust [["&&UNITS"], ["7", "X", "2", "-5"]], u.picnum < 0 := by decide

/-- Claim C8 as amended: every record's picnum comes from field 3 of its
source row and is nonnegative whenever that trimmed field does not begin with
a minus sign (in particular the blank default is 0). -/
theorem claim_C8_amended_picnum (rows : List (List String)) (b : Bool) (u : SimpleUnit)
    (h : u ∈ parse_units_from rows b) :
    ∃ row ∈ rows, rowToUnit row = some u ∧
      ((pyStrip (row.getD 3 "")).data.head? ≠ some '-' → 0 ≤ u.picnum) := by
  obtain ⟨row, hr, hru⟩ := mem_parse_from rows b u h
  exact ⟨row, hr, hru, (rowToUnit_spec row u hru).2.2⟩

/-- Witness for the amended C8 at a concrete parsed record. -/
theorem claim_C8_witness :
    ((⟨7, "Jeep", 450, 2, "land", ""⟩ : SimpleUnit) ∈
        parse_units_from [["&&UNITS"], ["7", "Jeep", "2", "450"]] false) ∧
    ∃ row ∈ [["&&UNITS"], ["7", "Jeep", "2", "450"]],
      rowToUnit row = some ⟨7, "Jeep", 450, 2, "land", ""⟩ ∧
      ((pyStrip (row.getD 3 "")).data.head? ≠ some '-'
        → 0 ≤ (⟨7, "Jeep", 450, 2, "land", ""⟩ : SimpleUnit).picnum) :=
  ⟨by decide, claim_C8_amended_picnum [["&&UNITS"], ["7", "Jeep", "2", "450"]] false
    ⟨7, "Jeep", 450, 2, "land", ""⟩ (by decide)⟩

/-- Claim C9: only the first marker occurrence matters: replacing every later
marker row by an ordinary non-data row leaves the parse output unchanged, and
a post-marker marker row yields no record and leaves the handling of the
remaining rows untouched. -/
theorem claim_C9_first_marker (rows : List (List String))
    (_two_markers : 2 ≤ rows.countP (fun r => isMarkerRow r)) :
    parse_units_robust (replace_later_markers rows false) = parse_units_robust rows ∧
    ∀ (row : List String) (rest : List (List String)), isMarkerRow row = true →
      parse_units_from (row :: rest) true = parse_units_from rest true := by
  refine ⟨replace_later_markers_eq rows false, ?_⟩
  intro row rest hm
  rw [parse_from_cons, if_pos hm]

/-- Witness for C9 at an input with two marker rows. -/
theorem claim_C9_witness :
    2 ≤ ([["&&UNITS"], ["1", "A", "2", "3"], ["&&UNITS"], ["2", "B", "2", "3"]].countP
        (fun r => isMarkerRow r)) ∧
    parse_units_robust (replace_later_markers
        [["&&UNITS"], ["1", "A", "2", "3"], ["&&UNITS"], ["2", "B", "2", "3"]] false)
      = parse_units_robust [["&&UNITS"], ["1", "A", "2", "3"], ["&&UNITS"], ["2", "B", "2", "3"]] ∧
    parse_units_from [["&&UNITS"], ["3", "C", "2", "3"]] true
      = parse_units_from [["3", "C", "2", "3"]] true :=
  ⟨by decide,
    (claim_C9_first_marker
      [["&&UNITS"], ["1", "A", "2", "3"], ["&&UNITS"], ["2", "B", "2", "3"]] (by decide)).1,
    (claim_C9_first_marker
      [["&&UNITS"], ["1", "A", "2", "3"], ["&&UNITS"], ["2", "B", "2", "3"]] (by decide)).2
      ["&&UNITS"] [["3", "C", "2", "3"]] (by decide)⟩

/-- Claim C10: the reverse picnum lookup ignores the filter and sort settings
entirely, returns exactly the units whose picnum equals the queried integer in
original list order, and a non-integer query yields the warning outcome that
leaves the displayed list unchanged. -/
theorem claim_C10_picnum_lookup (units : List SimpleUnit) (s s' : FilterSettings)
    (t : String) :
    search_by_picnum units s t = search_by_picnum units s' t ∧
    (∀ target : Int, (pyStrip t).data.isEmpty = false → pyInt (pyStrip t) = some target →
      search_by_picnum units s t
        = PicnumSearchOutcome.results (units.filter (fun u => u.picnum == target)) ∧
      (units.filter (fun u => u.picnum == target)).Sublist units ∧
      (∀ u : SimpleUnit, u ∈ units.filter (fun u => u.picnum == target)
        ↔ (u ∈ units ∧ u.picnum = target))) ∧
    ((pyStrip t).data.isEmpty = false → pyInt (pyStrip t) = none →
      search_by_picnum units s t = PicnumSearchOutcome.invalidWarning) := by
  refine ⟨rfl, ?_, ?_⟩
  · intro target hne hsome
    refine ⟨?_, List.filter_sublist _, ?_⟩
    · unfold search_by_picnum
      rw [if_neg (by rw [hne]; exact Bool.false_ne_true), hsome]
    · intro u
      rw [List.mem_filter]
      constructor
      · rintro ⟨h1, h2⟩
        exact ⟨h1, by simpa using h2⟩
      · rintro ⟨h1, h2⟩
        exact ⟨h1, by simpa using h2⟩
  · intro hne hnone
    unfold search_by_picnum
    rw [if_neg (by rw [hne]; exact Bool.false_ne_true), hnone]

/-- Witness for C10 at a concrete unit list and query. -/
theorem claim_C10_witness :
    (pyStrip "5").data.isEmpty = false ∧ pyInt (pyStrip "5") = some 5 ∧
    search_by_picnum sampleUnits sampleSettings "5"
      = PicnumSearchOutcome.results (sampleUnits.filter (fun u => u.picnum == 5)) :=
  ⟨by decide, by decide,
    ((claim_C10_picnum_lookup sampleUnits sampleSettings sampleSettings "5").2.1 5
      (by decide) (by decide)).1⟩
